import Mathlib

/-!
# Verification of the social-media-post-manager content pipeline

A shallow embedding, in Lean 4, of the algorithmic core of the
`social-media-post-manager` backend (the LangGraph nodes under
`backend/app/langgraph/nodes/`), together with theorems settling the
frozen claims about it.

Modelling conventions:
* Python strings are modelled at the code-point level: a Lean `String`
  is its list of code points (`String.data`), which matches Python's
  `len`, indexing and slicing semantics.  Case conversion is modelled
  for ASCII letters (all constants in the source are ASCII).
* `hashlib.md5(x).hexdigest()` is modelled as an ideal collision-free
  (injective) hash; see `md5Hex`.
* Python floats are modelled as rationals (`ℚ`); the scoring constants
  0.4 / 0.2 / 0.1 / 0.5 become 2/5, 1/5, 1/10, 1/2.
* Raising an exception is modelled with `Except`; a `try/except` block
  becomes a `match` on the `Except` value.
-/

deriving instance DecidableEq for Except

namespace Spec2Proof

/-! ## Python string primitives -/

/-- ASCII lower-casing of one character, as `str.lower` acts on ASCII. -/
def asciiLowerChar (c : Char) : Char :=
  if 'A' ≤ c && c ≤ 'Z' then Char.ofNat (c.toNat + 32) else c

/-- Model of Python `str.lower()` (ASCII range). -/
def pyLower (s : String) : String := ⟨s.data.map asciiLowerChar⟩

/-- The characters Python's `str.strip()` and the regex class `\s` treat as
whitespace (ASCII range). -/
def isPySpace (c : Char) : Bool :=
  c == ' ' || c == '\t' || c == '\n' || c == '\r' || c == '\x0b' || c == '\x0c'

/-- Model of Python `str.strip()`: remove leading and trailing whitespace. -/
def pyStrip (s : String) : String :=
  ⟨((s.data.dropWhile isPySpace).reverse.dropWhile isPySpace).reverse⟩

/-- `len(s)` in Python: the number of code points. -/
def strLen (s : String) : Nat := s.data.length

/-- Python slice `s[:n]` for a nonnegative `n`. -/
def strTake (s : String) (n : Nat) : String := ⟨s.data.take n⟩

/-- Python slice `s[:n]` for a possibly negative `n`
(`s[:-k]` keeps everything but the last `k` code points). -/
def pySliceTo (s : String) (n : Int) : String :=
  if 0 ≤ n then strTake s n.toNat else strTake s (s.data.length - n.natAbs)

/-- `pat` is a prefix of `hay` (as code-point lists). -/
def startsWithChars : List Char → List Char → Bool
  | [], _ => true
  | _ :: _, [] => false
  | p :: ps, h :: hs => p == h && startsWithChars ps hs

/-- `pat` occurs as a contiguous sublist of `hay`:
the model of Python's `pat in hay` on strings. -/
def containsChars (pat : List Char) : List Char → Bool
  | [] => pat.isEmpty
  | c :: t => startsWithChars pat (c :: t) || containsChars pat t

/-- Python `pat in hay` for strings. -/
def strContains (hay pat : String) : Bool := containsChars pat.data hay.data

/-- Replace every occurrence of the (nonempty) pattern, scanning left to
right without overlap: the model of Python `str.replace(old, new)`.
Structural recursion on a fuel argument (one unit per consumed character,
so fuel = input length always suffices) to keep the definition
kernel-reducible. -/
def replaceAllChars (pat repl : List Char) : Nat → List Char → List Char
  | 0, l => l
  | _ + 1, [] => []
  | fuel + 1, c :: t =>
    if pat ≠ [] && startsWithChars pat (c :: t) then
      repl ++ replaceAllChars pat repl fuel (t.drop (pat.length - 1))
    else
      c :: replaceAllChars pat repl fuel t

/-- Python `s.replace(old, new)` (used only with nonempty `old`). -/
def strReplaceAll (s pat repl : String) : String :=
  ⟨replaceAllChars pat.data repl.data s.data.length s.data⟩

/-- Replace the first case-insensitive occurrence of `word` by `repl`:
the model of `re.compile(re.escape(word), re.IGNORECASE).sub(repl, s, count=1)`. -/
def replaceFirstCI (word repl : List Char) : List Char → List Char
  | [] => []
  | c :: t =>
    if startsWithChars (word.map asciiLowerChar) ((c :: t).map asciiLowerChar) then
      repl ++ t.drop (word.length - 1)
    else
      c :: replaceFirstCI word repl t

/-! ## Ideal hash model -/

/-- Model of `hashlib.md5(s.encode()).hexdigest()` as an ideal,
collision-free hash: the digest is the input string itself (any injective
function would do).  Consequently two digests in this development are equal
exactly when the hash-input strings are equal; every collision exhibited
below is a collision of the *inputs* the source feeds to md5, not an md5
collision. -/
def md5Hex (s : String) : String := s

/-! ## `urllib.parse.urlparse(...).netloc` model -/

/-- Characters allowed in a URL scheme after the leading letter. -/
def isSchemeChar (c : Char) : Bool :=
  c.isAlpha || c.isDigit || c == '+' || c == '-' || c == '.'

/-- Drop a leading `scheme:` from a URL, following `urllib.parse.urlsplit`:
the text before the first `:` counts as a scheme when it is nonempty,
starts with an ASCII letter and contains only scheme characters. -/
def stripScheme (l : List Char) : List Char :=
  match l.findIdx? (· == ':') with
  | none => l
  | some i =>
    if 0 < i
        && (match l.head? with | some c => c.isAlpha | none => false)
        && (l.take i).all isSchemeChar then
      l.drop (i + 1)
    else l

/-- `urlparse(url).netloc`: nonempty only when (after the scheme) the URL
continues with `//`; the authority then runs up to the next `/`, `?` or `#`. -/
def netlocOf (url : String) : String :=
  let rest := stripScheme url.data
  if startsWithChars "//".data rest then
    ⟨(rest.drop 2).takeWhile (fun c => !(c == '/' || c == '?' || c == '#'))⟩
  else ""

/-! ## Data model -/

/-- A raw candidate article as produced by `FetchNewsNode._parse_serper_response`
(the `imageUrl` field is never read downstream and is omitted). -/
structure RawArticle where
  title : String
  url : String
  source : String
  snippet : String
  date : String
  position : Int
  deriving DecidableEq, Repr

/-- A raw article after `_calculate_relevance_scores` /
`_filter_by_source_priority` added the `relevance_score` and
`trusted_source` keys.  In the source these dictionary keys may be absent
until set; every later read defaults `trusted_source` to `False`, so the
stages that do not set it are modelled as setting it to `false`. -/
structure ScoredArticle where
  art : RawArticle
  relevance_score : ℚ
  trusted_source : Bool
  deriving DecidableEq, Repr

/-- The `NewsArticle` shape produced by
`FilterArticlesNode._convert_to_news_articles`. -/
structure NewsArticle where
  title : String
  url : String
  source : String
  summary : String
  published_at : String
  relevance_score : ℚ
  content_hash : String
  deriving DecidableEq, Repr

/-- A topic configuration row as loaded by `_load_topic_config`.
`priorityWeight` is a float in the source, modelled as `ℚ`. -/
structure TopicConfig where
  topicName : String
  keywords : List String
  trustedSources : List String
  priorityWeight : ℚ
  deriving DecidableEq, Repr

/-! ## `FilterArticlesNode` -/

/-- `self.min_title_length` in `FilterArticlesNode.__init__`. -/
def min_title_length : Nat := 10

/-- `self.min_snippet_length` in `FilterArticlesNode.__init__`. -/
def min_snippet_length : Nat := 20

/-- The per-article predicate of `FilterArticlesNode._filter_by_quality`:
nonempty title and URL, title at least 10 code points, snippet at least 20,
and a URL that parses with a nonempty host. -/
def qualityKeep (a : RawArticle) : Bool :=
  a.title != "" && a.url != ""
    && decide (min_title_length ≤ strLen a.title)
    && decide (min_snippet_length ≤ strLen a.snippet)
    && netlocOf a.url != ""

/-- `FilterArticlesNode._filter_by_quality`. -/
def filterByQuality (l : List RawArticle) : List RawArticle := l.filter qualityKeep

/-- `article.get("title", "").lower().strip()` — the normalized title
hashed for in-batch title deduplication. -/
def normTitleStr (title : String) : String := pyStrip (pyLower title)

/-- The loop of `FilterArticlesNode._remove_duplicates`, threading the
`seen_urls` and `seen_titles` sets (modelled as lists). -/
def removeDuplicatesAux : List RawArticle → List String → List String → List RawArticle
  | [], _, _ => []
  | a :: t, seenUrls, seenTitles =>
    if seenUrls.contains a.url then
      removeDuplicatesAux t seenUrls seenTitles
    else if seenTitles.contains (md5Hex (normTitleStr a.title)) then
      removeDuplicatesAux t seenUrls seenTitles
    else
      a :: removeDuplicatesAux t (a.url :: seenUrls) (md5Hex (normTitleStr a.title) :: seenTitles)

/-- `FilterArticlesNode._remove_duplicates`. -/
def removeDuplicates (l : List RawArticle) : List RawArticle := removeDuplicatesAux l [] []

/-- The score contribution of a single keyword in
`_calculate_relevance_scores`: +0.4 when it occurs in the lower-cased
title, +0.2 in the lower-cased snippet, +0.1 in the lower-cased source
(the three arguments are the already-lower-cased fields). -/
def keywordScore (title snippet source : String) (kw : String) : ℚ :=
  (if strContains title (pyLower kw) then (2/5 : ℚ) else 0) +
    (if strContains snippet (pyLower kw) then (1/5 : ℚ) else 0) +
    (if strContains source (pyLower kw) then (1/10 : ℚ) else 0)

/-- The per-article score of `_calculate_relevance_scores` for a nonempty
keyword list: accumulate the keyword contributions, then
`min(score / total_keywords, 1.0)`. -/
def articleScore (keywords : List String) (a : RawArticle) : ℚ :=
  let title := pyLower a.title
  let snippet := pyLower a.snippet
  let source := pyLower a.source
  let score := keywords.foldl (fun s kw => s + keywordScore title snippet source kw) 0
  min (score / (keywords.length : ℚ)) 1

/-- `FilterArticlesNode._calculate_relevance_scores`: with no topic
configuration, or an empty keyword list, every article scores 0.5;
otherwise the keyword formula applies. -/
def calculateRelevanceScores (cfg : Option TopicConfig) (l : List RawArticle) :
    List ScoredArticle :=
  match cfg with
  | none => l.map (fun a => ⟨a, 1/2, false⟩)
  | some c =>
    if c.keywords.isEmpty then l.map (fun a => ⟨a, 1/2, false⟩)
    else l.map (fun a => ⟨a, articleScore c.keywords a, false⟩)

/-- Spec-side restatement of the per-keyword contribution, following the
spec's words: 0.4 if the keyword appears in the lower-cased title, 0.2 if
in the snippet, 0.1 if in the source name. -/
def specKeywordPoints (a : RawArticle) (kw : String) : ℚ :=
  (if strContains (pyLower a.title) (pyLower kw) then (2/5 : ℚ) else 0) +
    (if strContains (pyLower a.snippet) (pyLower kw) then (1/5 : ℚ) else 0) +
    (if strContains (pyLower a.source) (pyLower kw) then (1/10 : ℚ) else 0)

/-- Spec-side restatement of the relevance score for a nonempty keyword
list: `min(sum / keyword-count, 1.0)`. -/
def specRelevanceScore (keywords : List String) (a : RawArticle) : ℚ :=
  min (((keywords.map (specKeywordPoints a)).sum) / (keywords.length : ℚ)) 1

/-- The host used for the trusted-source check:
`urlparse(url).netloc.lower()` with `"www."` removed. -/
def boostDomain (url : String) : String :=
  strReplaceAll (pyLower (netlocOf url)) "www." ""

/-- `FilterArticlesNode._filter_by_source_priority`: boost and mark
articles whose host matches a trusted source. -/
def filterBySourcePriority (cfg : Option TopicConfig) (l : List ScoredArticle) :
    List ScoredArticle :=
  match cfg with
  | none => l
  | some c =>
    if c.trustedSources.isEmpty then l
    else
      l.map (fun sa =>
        if c.trustedSources.any (fun ts => strContains (boostDomain sa.art.url) (pyLower ts)) then
          { sa with relevance_score := min (sa.relevance_score * c.priorityWeight) 1,
                    trusted_source := true }
        else { sa with trusted_source := false })

/-- The sort key of `_rank_and_limit_articles`:
`(relevance_score, trusted_source, -position)`. -/
def sortKey (sa : ScoredArticle) : ℚ × Bool × Int :=
  (sa.relevance_score, sa.trusted_source, -sa.art.position)

/-- `a < b` on Python booleans (`False < True`). -/
def boolLT (a b : Bool) : Bool := !a && b

/-- Lexicographic `≤` on the sort-key tuples, as Python compares them. -/
def keyLE (x y : ℚ × Bool × Int) : Bool :=
  decide (x.1 < y.1) ||
    (decide (x.1 = y.1) &&
      (boolLT x.2.1 y.2.1 ||
        (x.2.1 == y.2.1 && decide (x.2.2 ≤ y.2.2))))

/-- The comparator realising Python's `sorted(..., key=sortKey, reverse=True)`:
`a` may precede `b` when `a`'s key is ≥ `b`'s key. -/
def rankLE (a b : ScoredArticle) : Bool := keyLE (sortKey b) (sortKey a)

/-- `FilterArticlesNode._rank_and_limit_articles`: stable descending sort
by the key tuple, then truncate to the requested count. -/
def rankAndLimitArticles (l : List ScoredArticle) (limit : Nat) : List ScoredArticle :=
  (l.mergeSort rankLE).take limit

/-- One step of `FilterArticlesNode._convert_to_news_articles`:
`content_hash = md5(title + url)`, source from the URL host with `"www."`
removed (falling back to the article's source field). -/
def convertArticle (sa : ScoredArticle) : NewsArticle :=
  let domain := netlocOf sa.art.url
  { title := sa.art.title
    url := sa.art.url
    source := if domain != "" then strReplaceAll domain "www." "" else sa.art.source
    summary := sa.art.snippet
    published_at := sa.art.date
    relevance_score := sa.relevance_score
    content_hash := md5Hex (sa.art.title ++ sa.art.url) }

/-- `FilterArticlesNode._convert_to_news_articles` (no conversion in the
model can throw, so no article is skipped). -/
def convertToNewsArticles (l : List ScoredArticle) : List NewsArticle :=
  l.map convertArticle

/-- The scored-article stage of `FilterArticlesNode.__call__`: quality
filter, dedup, relevance scores, source boost, rank and truncate. -/
def rankedArticles (cfg : Option TopicConfig) (raw : List RawArticle) (topN : Nat) :
    List ScoredArticle :=
  rankAndLimitArticles
    (filterBySourcePriority cfg
      (calculateRelevanceScores cfg
        (removeDuplicates (filterByQuality raw))))
    topN

/-- The full article list returned by `FilterArticlesNode.__call__`
(state key `filtered_articles`). -/
def filterArticlesPipeline (cfg : Option TopicConfig) (raw : List RawArticle) (topN : Nat) :
    List NewsArticle :=
  convertToNewsArticles (rankedArticles cfg raw topN)

/-! ## `CheckQuotaNode`

Time is modelled as a UTC timestamp in seconds (`Int`); the conversion
from a timestamp to its UTC calendar date (Python's
`datetime.utcnow().date()` / SQL `func.date`) is passed in as a parameter
`dateOf`, since it is library code, not repository code. -/

/-- A calendar date as compared by SQL `func.date` /
`datetime.date` (lexicographic on year, month, day). -/
structure PyDate where
  year : Int
  month : Int
  day : Int
  deriving DecidableEq, Repr

/-- `datetime.date` ordering (lexicographic). -/
def PyDate.leb (a b : PyDate) : Bool :=
  decide (a.year < b.year) ||
    (decide (a.year = b.year) &&
      (decide (a.month < b.month) ||
        (decide (a.month = b.month) && decide (a.day ≤ b.day))))

/-- `today.replace(day=1)` — the first day of the current month. -/
def PyDate.monthStart (d : PyDate) : PyDate := { d with day := 1 }

/-- A `user_requests` row (the quota ledger entry). -/
structure UserRequest where
  session_id : String
  request_type : String
  topic : String
  date_requested : String
  request_hash : String
  created_at : Int
  deriving DecidableEq, Repr

/-- `CheckQuotaNode._generate_request_hash`:
`md5(f"{session_id}-{topic.lower().strip()}-{date}")`. -/
def generateRequestHash (topic date session_id : String) : String :=
  md5Hex (session_id ++ "-" ++ pyStrip (pyLower topic) ++ "-" ++ date)

/-- The errors `CheckQuotaNode` can reject with. -/
inductive QuotaNodeError where
  /-- `DuplicateRequestError(request_hash, original_timestamp)`. -/
  | duplicateRequest (requestHash : String) (originalCreatedAt : Int)
  /-- `QuotaExceededError(quota_type, used, limit)`. -/
  | quotaExceeded (quotaType : String) (used limit : Int)
  /-- `DatabaseError(operation, ...)`. -/
  | databaseError (operation : String)
  deriving DecidableEq, Repr

/-- The `QuotaInfo` dictionary of the news state. -/
structure QuotaInfo where
  daily_used : Int
  daily_limit : Int
  monthly_used : Int
  monthly_limit : Int
  remaining : Int
  quota_available : Bool
  deriving DecidableEq, Repr

/-- The rows matched by `_check_duplicate_request`: same session, same
fingerprint, created within the last hour (3600 s). -/
def duplicateRows (ledger : List UserRequest) (sessionId requestHash : String)
    (now : Int) : List UserRequest :=
  ledger.filter (fun e =>
    e.session_id == sessionId && e.request_hash == requestHash &&
      decide (now - 3600 ≤ e.created_at))

/-- The daily counter of `_get_quota_info`: rows of the session whose
`func.date(created_at)` equals today's date. -/
def dailyUsedCount (dateOf : Int → PyDate) (ledger : List UserRequest)
    (sessionId : String) (today : PyDate) : Int :=
  (ledger.filter (fun e => e.session_id == sessionId && dateOf e.created_at == today)).length

/-- The monthly counter of `_get_quota_info`: rows of the session whose
`func.date(created_at)` is on or after the first of the current month. -/
def monthlyUsedCount (dateOf : Int → PyDate) (ledger : List UserRequest)
    (sessionId : String) (today : PyDate) : Int :=
  (ledger.filter (fun e =>
    e.session_id == sessionId && (today.monthStart).leb (dateOf e.created_at))).length

/-- `CheckQuotaNode.__call__` restricted to its quota logic: duplicate
check (a multi-row match makes `scalar_one_or_none` raise, surfacing as a
`DatabaseError`), then quota counters, then limit validation, then the
insert.  The returned ledger is the committed database state: on any
rejection the transaction is rolled back, so the ledger is unchanged. -/
def checkQuotaNode (dateOf : Int → PyDate) (dailyLimit monthlyLimit : Int)
    (ledger : List UserRequest) (now : Int) (sessionId topic date : String) :
    Except QuotaNodeError QuotaInfo × List UserRequest :=
  let requestHash := generateRequestHash topic date sessionId
  match duplicateRows ledger sessionId requestHash now with
  | [e] => (.error (.duplicateRequest requestHash e.created_at), ledger)
  | [] =>
    let today := dateOf now
    let dailyUsed := dailyUsedCount dateOf ledger sessionId today
    let monthlyUsed := monthlyUsedCount dateOf ledger sessionId today
    if dailyLimit ≤ dailyUsed then
      (.error (.quotaExceeded "daily" dailyUsed dailyLimit), ledger)
    else if monthlyLimit ≤ monthlyUsed then
      (.error (.quotaExceeded "monthly" monthlyUsed monthlyLimit), ledger)
    else
      let entry : UserRequest :=
        { session_id := sessionId, request_type := "news_fetch", topic := topic,
          date_requested := date, request_hash := requestHash, created_at := now }
      (.ok { daily_used := dailyUsed + 1, daily_limit := dailyLimit,
             monthly_used := monthlyUsed + 1, monthly_limit := monthlyLimit,
             remaining := dailyLimit - (dailyUsed + 1),
             quota_available := decide (0 < dailyLimit - (dailyUsed + 1)) },
       ledger ++ [entry])
  | _ :: _ :: _ => (.error (.databaseError "duplicate_check"), ledger)

/-! ## `SummarizeContentNode` -/

/-- `self.summary_max_length`. -/
def summaryMaxLength : Nat := 200

/-- The truncation in `_generate_single_summary`: over-long summaries are
cut to 197 code points plus `"..."`. -/
def truncateSummary (s : String) : String :=
  if summaryMaxLength < strLen s then strTake s (summaryMaxLength - 3) ++ "..." else s

/-- The outcome of `_generate_single_summary`'s retry loop.  The oracle
yields, per attempt, `none` when the provider call raised, or
`some c` with the raw response content `c`; the loop returns the first
attempt whose stripped content is nonempty, truncated, and fails
(`none`) when no attempt does. -/
def singleSummaryOutcome : List (Option String) → Option String
  | [] => none
  | none :: rest => singleSummaryOutcome rest
  | some c :: rest =>
    let s := pyStrip c
    if s != "" then some (truncateSummary s) else singleSummaryOutcome rest

/-- A modelled `LLMProviderError(provider, original_error)`. -/
structure LLMError where
  provider : String
  original_error : String
  deriving DecidableEq, Repr

/-- `str(e)` of the modelled `LLMProviderError`, i.e. its message
`f"LLM Provider {provider} failed: {original_error}"`. -/
def LLMError.message (e : LLMError) : String :=
  "LLM Provider " ++ e.provider ++ " failed: " ++ e.original_error

/-- Which API keys are configured in `settings`. -/
structure ApiKeys where
  anthropic : Bool
  openai : Bool
  google : Bool
  deriving DecidableEq, Repr

/-- The provider-specific failure reason of `_initialize_llm_client`
(`none` = client construction succeeds). -/
def initBaseError (keys : ApiKeys) (provider : String) : Option String :=
  if provider == "claude-3-5-sonnet" then
    if keys.anthropic then none else some "Anthropic API key not configured"
  else if provider == "gpt-4-turbo" then
    if keys.openai then none else some "OpenAI API key not configured"
  else if provider == "gemini-pro" then
    if keys.google then none else some "Google API key not configured"
  else some ("Unknown provider: " ++ provider)

/-- `_initialize_llm_client`: the inner `raise LLMProviderError(...)` is
caught by the function's own `except` clause and re-wrapped as
`LLMProviderError(provider, f"Failed to initialize: {str(e)}")`. -/
def initializeLlmClient (keys : ApiKeys) (provider : String) : Except LLMError Unit :=
  match initBaseError keys provider with
  | none => .ok ()
  | some base => .error ⟨provider, "Failed to initialize: " ++ (LLMError.mk provider base).message⟩

/-- The per-article oracle: for a provider and an article index, the list
of attempt outcomes of the (up to 3) generation attempts. -/
def LLMGen : Type := String → Nat → List (Option String)

/-- The article list built by `_generate_summaries`: one output per input
article, in order; a failed article keeps its original snippet truncated
to 200 code points. -/
def generateSummariesList (gen : LLMGen) (provider : String)
    (articles : List NewsArticle) : List NewsArticle :=
  articles.mapIdx (fun i a =>
    match singleSummaryOutcome (gen provider i) with
    | some s => { a with summary := s }
    | none => { a with summary := strTake a.summary summaryMaxLength })

/-- `_generate_summaries`: raises `LLMProviderError(provider, "Failed to
summarize any articles")` exactly when the output (equivalently, the
input) is empty. -/
def generateSummaries (gen : LLMGen) (provider : String)
    (articles : List NewsArticle) : Except LLMError (List NewsArticle) :=
  let summarized := generateSummariesList gen provider articles
  if summarized.isEmpty then .error ⟨provider, "Failed to summarize any articles"⟩
  else .ok summarized

/-- `self.provider_order` of `SummarizeContentNode`. -/
def knownProviders : List String := ["claude-3-5-sonnet", "gpt-4-turbo", "gemini-pro"]

/-- `_get_provider_order`: start from `[preferred]` and append every other
known provider in the fixed order. -/
def getProviderOrder (preferred : String) : List String :=
  knownProviders.foldl (fun acc p => if p != preferred then acc ++ [p] else acc) [preferred]

/-- The loop of `_summarize_with_fallback` over the remaining providers,
threading the `providers_tried` list and the last error. -/
def summarizeWithFallbackAux (keys : ApiKeys) (gen : LLMGen)
    (articles : List NewsArticle) :
    List String → List String → Option LLMError →
      List String × Except LLMError (List NewsArticle)
  | [], tried, lastErr =>
    (tried, .error ⟨"all_providers",
      "All LLM providers failed. Last error: " ++
        (match lastErr with | some e => e.message | none => "None")⟩)
  | p :: rest, tried, _lastErr =>
    let tried' := tried ++ [p]
    match initializeLlmClient keys p with
    | .error e => summarizeWithFallbackAux keys gen articles rest tried' (some e)
    | .ok _ =>
      match generateSummaries gen p articles with
      | .ok res => (tried', .ok res)
      | .error e => summarizeWithFallbackAux keys gen articles rest tried' (some e)

/-- `_summarize_with_fallback` as called from `__call__`: the first
component is the final `providers_tried` list, the second the returned
articles or the raised error. -/
def summarizeWithFallback (keys : ApiKeys) (gen : LLMGen)
    (articles : List NewsArticle) (preferred : String) :
    List String × Except LLMError (List NewsArticle) :=
  summarizeWithFallbackAux keys gen articles (getProviderOrder preferred) [] none

/-! ## Post-generation nodes (`XPostNode`, `LinkedInPostNode`) -/

/-- `\w` of Python's `re` module (ASCII range). -/
def isWordChar (c : Char) : Bool :=
  ('a' ≤ c && c ≤ 'z') || ('A' ≤ c && c ≤ 'Z') || ('0' ≤ c && c ≤ '9') || c == '_'

/-- Does the list start a URL match of `https?://[^\s]+`? -/
def urlStartsHere (l : List Char) : Bool :=
  startsWithChars "http://".data l || startsWithChars "https://".data l

/-- `re.findall(r'https?://[^\s]+', s)`: scan left to right; at each
position where `http://` or `https://` begins, the match greedily takes
every following non-whitespace character, and scanning resumes after it.
Fuel-based structural recursion (fuel = input length suffices). -/
def findUrlsChars : Nat → List Char → List (List Char)
  | 0, _ => []
  | _ + 1, [] => []
  | fuel + 1, c :: t =>
    if urlStartsHere (c :: t) then
      let u := (c :: t).takeWhile (fun ch => !isPySpace ch)
      u :: findUrlsChars fuel (t.drop (u.length - 1))
    else findUrlsChars fuel t

/-- `re.findall(r'https?://[^\s]+', s)` on strings. -/
def findUrls (s : String) : List String :=
  (findUrlsChars s.data.length s.data).map (fun l => (⟨l⟩ : String))

/-- `re.findall(r'#\w+', s)`: a `#` followed by at least one word
character; scanning resumes after each match. -/
def findHashtagsChars : Nat → List Char → List (List Char)
  | 0, _ => []
  | _ + 1, [] => []
  | fuel + 1, c :: t =>
    if c == '#' then
      let w := t.takeWhile isWordChar
      if w.isEmpty then findHashtagsChars fuel t
      else ('#' :: w) :: findHashtagsChars fuel (t.drop w.length)
    else findHashtagsChars fuel t

/-- `_extract_hashtags`: `re.findall(r'#\w+', content)` then
`list(set(...))`.  Python's set iteration order is unspecified; the model
keeps each hashtag's last occurrence order via `List.dedup`. -/
def extractHashtags (content : String) : List String :=
  ((findHashtagsChars content.data.length content.data).map
    (fun l => (⟨l⟩ : String))).dedup

/-- Does the suffix starting here match `(\s#\w+)+` through to the end of
the string?  One group is one whitespace character, `#`, and a maximal
nonempty run of word characters. -/
def isHashtagRunToEnd : Nat → List Char → Bool
  | 0, _ => false
  | _ + 1, [] => false
  | _ + 1, [_] => false
  | fuel + 1, sp :: h :: rest =>
    isPySpace sp && h == '#' &&
      (let w := rest.takeWhile isWordChar
       !w.isEmpty &&
         (let r2 := rest.drop w.length
          r2.isEmpty || isHashtagRunToEnd fuel r2))

/-- `re.search(r'(\s#\w+)+$', s).start()`: the leftmost index from which
the trailing hashtag-run pattern matches to the end (`none` = no match). -/
def hashtagRunStart (l : List Char) : Option Nat :=
  (List.range l.length).find? (fun i => isHashtagRunToEnd l.length (l.drop i))

/-- `XPostNode.MAX_CHAR_LIMIT`. -/
def xMaxCharLimit : Nat := 250

/-- The final character-count validation of `XPostNode.__call__`: when the
content is over the limit, try to preserve a trailing hashtag run
(`content_without_hashtags[:250 - len(hashtags) - 3] + "..." + hashtags`,
a Python slice whose bound may be negative), else plain truncation. -/
def xTruncate (content : String) : String :=
  let l := content.data
  if xMaxCharLimit < l.length then
    match hashtagRunStart l with
    | some i =>
      let hashtags := l.drop i
      let contentWithoutHashtags : String := ⟨l.take i⟩
      let maxContentLength : Int := (xMaxCharLimit : Int) - hashtags.length - 3
      pySliceTo contentWithoutHashtags maxContentLength ++ "..." ++ (⟨hashtags⟩ : String)
    | none => strTake content (xMaxCharLimit - 3) ++ "..."
  else content

/-- An article as supplied to the post workflow (only the fields the
modelled code paths read). -/
structure ArticleInput where
  title : String
  url : String
  deriving DecidableEq, Repr

/-- The contextual `(full_phrase, embed_word)` pairs of
`_handle_url_gracefully`. -/
def embedPhrases : List (String × String) :=
  [("Details", "Details"), ("Full story", "story"), ("Read more", "more"),
   ("Source", "Source"), ("Analysis", "Analysis"), ("Report", "Report"),
   ("Data", "Data"), ("Study", "Study")]

/-- `XPostNode._handle_url_gracefully`. -/
def handleUrlGracefully (content : String) (articles : List ArticleInput) : String :=
  match articles with
  | [] => content
  | primary :: _ =>
    let primaryUrl := primary.url
    if primaryUrl == "" then content
    else
      match embedPhrases.find? (fun pr => strContains (pyLower content) (pyLower pr.2)) with
      | some pr =>
        ⟨replaceFirstCI pr.2.data ("[" ++ pr.2 ++ "](" ++ primaryUrl ++ ")").data content.data⟩
      | none =>
        let testAddition := " Details: " ++ primaryUrl
        if strLen content + strLen testAddition ≤ xMaxCharLimit then content ++ testAddition
        else if strLen content + strLen primaryUrl + 1 ≤ xMaxCharLimit then
          content ++ " " ++ primaryUrl
        else
          let availableSpace : Int := (xMaxCharLimit : Int) - strLen primaryUrl - 4
          if 50 < availableSpace then
            pySliceTo content availableSpace ++ "... " ++ primaryUrl
          else content

/-- The topic→hashtags table of `XPostNode._generate_hashtags`
(a Python dict, iterated in insertion order). -/
def hashtagMap : List (String × List String) :=
  [("AI", ["#AI", "#ArtificialIntelligence"]),
   ("Finance", ["#FinTech", "#Finance"]),
   ("Healthcare", ["#HealthTech", "#Healthcare"]),
   ("Technology", ["#Tech", "#Innovation"]),
   ("Business", ["#Business", "#Startups"]),
   ("Crypto", ["#Crypto", "#Blockchain"]),
   ("Climate", ["#ClimateChange", "#Sustainability"]),
   ("Education", ["#EdTech", "#Education"]),
   ("Security", ["#CyberSecurity", "#InfoSec"]),
   ("Data", ["#DataScience", "#BigData"])]

/-- `XPostNode._generate_hashtags`. -/
def generateHashtags (topic : String) : List String :=
  match hashtagMap.find? (fun kv => strContains (pyLower topic) (pyLower kv.1)) with
  | some kv => kv.2.take 2
  | none => ["#Tech", "#News"]

/-- The post-LLM content processing of `XPostNode.__call__`: strip the
response, shorten the first embedded URL when a TinyURL key is configured
(a shortening failure keeps the original URL), otherwise attempt graceful
URL embedding; add topic hashtags when none are present and they fit; and
finally validate the character count.  Returns the final content and the
original→shortened URL mapping. -/
def xPostProcess (shorten : String → Option String) (tinyKeyConfigured : Bool)
    (articles : List ArticleInput) (topic : String) (rawResponse : String) :
    String × List (String × String) :=
  let content := pyStrip rawResponse
  let urls := findUrls content
  let step1 : String × List (String × String) :=
    match urls with
    | [] => (content, [])
    | u :: _ =>
      if tinyKeyConfigured then
        match shorten u with
        | some su => (strReplaceAll content u su, [(u, su)])
        | none => (content, [])
      else (content, [])
  let content1 := step1.1
  let content2 :=
    if urls.isEmpty then handleUrlGracefully content1 articles else content1
  let content3 :=
    if !strContains content2 "#" then
      let hashtagText := String.intercalate " " (generateHashtags topic)
      if strLen content2 + strLen hashtagText + 1 ≤ xMaxCharLimit then
        content2 ++ " " ++ hashtagText
      else content2
    else content2
  (xTruncate content3, step1.2)

/-- A `GeneratedPostContent` record of the post state. -/
structure GeneratedPostContent where
  content : String
  char_count : Nat
  hashtags : List String
  shortened_urls : Option (List (String × String))
  deriving DecidableEq, Repr

/-- The post-workflow state (`PostState`), restricted to the fields the
modelled nodes read or write.  `session_id`, `workflow_id` and
`llm_model` are `Option`s because a partial state update may lack them
(the failure mode `get_post_workflow_fields` guards against);
`processing_steps` keeps only the step names. -/
structure PostState where
  session_id : Option String
  workflow_id : Option String
  llm_model : Option String
  topic : String
  articles : List ArticleInput
  linkedin_post : Option GeneratedPostContent
  x_post : Option GeneratedPostContent
  current_step : String
  current_llm_provider : String
  error_message : Option String
  failed_step : Option String
  processing_steps : List String
  deriving DecidableEq, Repr

/-- `StateAccessHelper.get_required_field` for a string field: missing
(`none`), `None`-valued or whitespace-only values raise `StateAccessError`. -/
def requiredStringField (name : String) (v : Option String) : Except String String :=
  match v with
  | none => .error (name ++ " is missing from post workflow state")
  | some s =>
    if pyStrip s == "" then .error (name ++ " is empty in post workflow state")
    else .ok s

/-- `get_post_workflow_fields`: the validated
(session_id, workflow_id, llm_model) triple. -/
def getPostWorkflowFields (state : PostState) :
    Except String (String × String × String) := do
  let sid ← requiredStringField "session_id" state.session_id
  let wid ← requiredStringField "workflow_id" state.workflow_id
  let llm ← requiredStringField "llm_model" state.llm_model
  pure (sid, wid, llm)

/-- The environment of a post-generation node: the configured providers
(the keys of `self.llm_providers`, in insertion order), the LLM call
(`Except` error = the call raised), and the URL shortener. -/
structure PostEnv where
  providers : List String
  llmResponse : String → Except String String
  shorten : String → Option String
  tinyKeyConfigured : Bool

/-- The provider-selection logic shared by both post nodes: fail when no
provider is configured; use the requested model when available, else fall
back to the first configured provider. -/
def selectProvider (env : PostEnv) (llmModel : String) : Except String String :=
  match env.providers with
  | [] =>
    .error ((LLMError.mk "none" "No LLM providers are configured.").message)
  | first :: _ =>
    if env.providers.contains llmModel then .ok llmModel else .ok first

/-- Python `str.split()` (split on whitespace runs, dropping empties). -/
def pySplitWs (s : String) : List String :=
  let step : Char → List (List Char) × List Char → List (List Char) × List Char :=
    fun c acc =>
      if isPySpace c then
        if acc.2.isEmpty then acc else (acc.2 :: acc.1, [])
      else (acc.1, c :: acc.2)
  let r := s.data.foldr step ([], [])
  (if r.2.isEmpty then r.1 else r.2 :: r.1).map (fun l => (⟨l⟩ : String))

/-- `LinkedInPostNode.MAX_CHAR_LIMIT`. -/
def linkedinMaxCharLimit : Nat := 3000

/-- The generic no-articles LinkedIn post
(`f"📢 Stay tuned for the latest updates on {topic}! 🚀\n\n..."`). -/
def linkedinGenericContent (topic : String) : String :=
  "📢 Stay tuned for the latest updates on " ++ topic ++ "! 🚀\n\n" ++
    "No specific news items available at the moment, but exciting developments are always happening in this space.\n\n" ++
    "#" ++ String.join (pySplitWs topic) ++ " #TechNews #Innovation"

/-- The final character-count validation of `LinkedInPostNode.__call__`. -/
def linkedinTruncate (content : String) : String :=
  if linkedinMaxCharLimit < strLen content then
    strTake content (linkedinMaxCharLimit - 3) ++ "..."
  else content

/-- The `try`-block body of `LinkedInPostNode.__call__`:
state-field validation, the no-articles generic branch (no provider
involved), provider selection, the LLM call, truncation, and the state
update.  An `.error` value is an exception reaching the node's outer
`except` handler.  The success path of the source returns a partial
update merged by the workflow reducers; it is modelled as the merged
state. -/
def linkedinPostInner (env : PostEnv) (state : PostState) : Except String PostState := do
  let fields ← getPostWorkflowFields state
  let llmModel := fields.2.2
  if state.articles.isEmpty then
    let generic := linkedinGenericContent state.topic
    pure { state with
      linkedin_post := some
        { content := generic, char_count := strLen generic,
          hashtags := extractHashtags generic, shortened_urls := none },
      current_step := "linkedin_post_generation",
      current_llm_provider := llmModel,
      processing_steps := state.processing_steps ++ ["linkedin_post_generation"] }
  else
    let model ← selectProvider env llmModel
    let resp ← env.llmResponse model
    let content := linkedinTruncate (pyStrip resp)
    pure { state with
      linkedin_post := some
        { content := content, char_count := strLen content,
          hashtags := extractHashtags content, shortened_urls := none },
      current_step := "linkedin_post_generation",
      current_llm_provider := model,
      processing_steps := state.processing_steps ++ ["linkedin_post_generation"] }

/-- The `except Exception` handler shared by both post nodes: log, then
return the input state with `error_message`, `failed_step`,
`current_step` and a fresh `processing_steps` entry set. -/
def postErrorState (state : PostState) (stepName msgPrefix errMsg : String) : PostState :=
  { state with
    error_message := some (msgPrefix ++ errMsg),
    failed_step := some stepName,
    current_step := stepName,
    processing_steps := state.processing_steps ++ [stepName] }

/-- `LinkedInPostNode.__call__`: the whole body runs inside
`try ... except Exception`, so an inner exception becomes an error state
and the node itself never raises (`Except.error` would be a propagated
exception; the node always returns `.ok`). -/
def linkedinPostNode (env : PostEnv) (state : PostState) : Except String PostState :=
  match linkedinPostInner env state with
  | .ok s => .ok s
  | .error e =>
    .ok (postErrorState state "linkedin_post_generation" "Failed to generate LinkedIn post: " e)

/-- The `try`-block body of `XPostNode.__call__` (no generic empty-articles
branch exists in this node). -/
def xPostInner (env : PostEnv) (state : PostState) : Except String PostState := do
  let fields ← getPostWorkflowFields state
  let llmModel := fields.2.2
  let model ← selectProvider env llmModel
  let resp ← env.llmResponse model
  let processed := xPostProcess env.shorten env.tinyKeyConfigured state.articles state.topic resp
  let content := processed.1
  pure { state with
    x_post := some
      { content := content, char_count := strLen content,
        hashtags := extractHashtags content,
        shortened_urls := if processed.2.isEmpty then none else some processed.2 },
    current_step := "x_post_generation",
    current_llm_provider := model,
    processing_steps := state.processing_steps ++ ["x_post_generation"] }

/-- `XPostNode.__call__` with its outer `except Exception` handler. -/
def xPostNode (env : PostEnv) (state : PostState) : Except String PostState :=
  match xPostInner env state with
  | .ok s => .ok s
  | .error e =>
    .ok (postErrorState state "x_post_generation" "Failed to generate X post: " e)

/-! ## `FetchNewsNode` -/

/-- One item of the `news` array of a Serper API response, with the
defaults `_parse_serper_response` applies for missing keys. -/
structure SerperItem where
  title : String
  link : String
  source : String
  snippet : String
  date : String
  imageUrl : String
  position : Int
  deriving DecidableEq, Repr

/-- The `num` field of the request payload in `_make_api_call`:
`min(num_results, 20)`. -/
def makeApiCallNum (numResults : Nat) : Nat := min numResults 20

/-- `FetchNewsNode._parse_serper_response`: normalize each item, keeping
only those with a nonempty title and link; no count cap is applied. -/
def parseSerperResponse (newsItems : List SerperItem) : List RawArticle :=
  newsItems.filterMap (fun it =>
    if it.title != "" && it.link != "" then
      some { title := it.title, url := it.link, source := it.source,
             snippet := it.snippet, date := it.date, position := it.position }
    else none)

/-! ## `ValidateInputNode` -/

/-- Split a character list on a separator character
(Python `str.split(sep)` for a one-character separator). -/
def splitOnChar (sep : Char) : List Char → List (List Char)
  | [] => [[]]
  | c :: t =>
    let r := splitOnChar sep t
    if c == sep then [] :: r
    else
      match r with
      | [] => [[c]]
      | h :: t2 => (c :: h) :: t2

/-- Parse a nonempty all-digit character list as a natural number. -/
def parseDigits (l : List Char) : Option Nat :=
  if l.isEmpty || !l.all Char.isDigit then none
  else some (l.foldl (fun acc c => 10 * acc + (c.toNat - '0'.toNat)) 0)

/-- Gregorian leap years. -/
def isLeapYear (y : Nat) : Bool :=
  (y % 4 == 0 && y % 100 != 0) || y % 400 == 0

/-- Days in a month of the Gregorian calendar. -/
def daysInMonth (y m : Nat) : Nat :=
  if m == 2 then (if isLeapYear y then 29 else 28)
  else if m == 4 || m == 6 || m == 9 || m == 11 then 30
  else 31

/-- A validated calendar date (`datetime.date`). -/
structure SimpleDate where
  year : Nat
  month : Nat
  day : Nat
  deriving DecidableEq, Repr

/-- `datetime.strptime(s, "%Y-%m-%d").date()`: three dash-separated digit
groups (year up to 4 digits, month and day up to 2), with the month, day
and year ranges `datetime` enforces. -/
def strptimeYmd (s : String) : Option SimpleDate :=
  match splitOnChar '-' s.data with
  | [ys, ms, ds] =>
    if ys.length ≤ 4 && ms.length ≤ 2 && ds.length ≤ 2 then
      match parseDigits ys, parseDigits ms, parseDigits ds with
      | some y, some m, some d =>
        if 1 ≤ y && 1 ≤ m && m ≤ 12 && 1 ≤ d && d ≤ daysInMonth y m then
          some ⟨y, m, d⟩
        else none
      | _, _, _ => none
    else none
  | _ => none

/-- Days in the months strictly before month `m`. -/
def daysBeforeMonth (y m : Nat) : Nat :=
  (List.range (m - 1)).foldl (fun acc i => acc + daysInMonth y (i + 1)) 0

/-- A day ordinal for a calendar date; differences of ordinals model
`(a - b).days` on `datetime.date`, and comparison of ordinals models date
comparison. -/
def dateOrdinal (d : SimpleDate) : Nat :=
  365 * (d.year - 1) + ((d.year - 1) / 4 + (d.year - 1) / 400) - (d.year - 1) / 100 +
    daysBeforeMonth d.year d.month + d.day

/-- `ValidateInputNode._validate_topic`.  The `isinstance` branch is not
modelled (the field is a string in the model). -/
def validateTopic (topic : String) : List String :=
  if topic == "" then ["Topic is required"]
  else
    let t := pyStrip topic
    (if strLen t < 2 then ["Topic must be at least 2 characters long"] else []) ++
      (if 100 < strLen t then ["Topic must be less than 100 characters"] else []) ++
      (if ['<', '>', '"', '\'', '&', ';'].any (fun c => t.data.contains c) then
        ["Topic contains forbidden characters"]
      else [])

/-- `ValidateInputNode._validate_date`, parameterised by today's date
(`datetime.now().date()`). -/
def validateDate (today : SimpleDate) (date : String) : List String :=
  if date == "" then ["Date is required"]
  else
    match strptimeYmd date with
    | none => ["Date must be in YYYY-MM-DD format"]
    | some d =>
      (if dateOrdinal today < dateOrdinal d then ["Date cannot be in the future"] else []) ++
        (if 365 < (dateOrdinal today : Int) - (dateOrdinal d : Int) then
          ["Date cannot be more than 1 year ago"]
        else [])

/-- `settings.MAX_NEWS_ARTICLES`. -/
def maxNewsArticles : Int := 12

/-- `ValidateInputNode._validate_top_n` (the `None`/`isinstance` branches
are not modelled: the field is an integer in the model). -/
def validateTopN (topN : Int) : List String :=
  (if topN < 1 then ["Top N must be at least 1"] else []) ++
    (if maxNewsArticles < topN then ["Top N cannot exceed 12"] else [])

/-- The `valid_models` list of `_validate_llm_model`. -/
def validModels : List String := ["claude-3-5-sonnet", "gpt-4-turbo", "gemini-pro"]

/-- `ValidateInputNode._validate_llm_model`. -/
def validateLlmModel (m : String) : List String :=
  if m == "" then ["LLM model is required"]
  else if validModels.contains m then []
  else ["LLM model must be one of: " ++ String.intercalate ", " validModels]

/-- A hexadecimal digit (either case, matching the `re.IGNORECASE` flag). -/
def isHexChar (c : Char) : Bool :=
  c.isDigit || ('a' ≤ c && c ≤ 'f') || ('A' ≤ c && c ≤ 'F')

/-- The UUID pattern of `_validate_session_id`:
`^[0-9a-f]{8}-[0-9a-f]{4}-[1-5][0-9a-f]{3}-[89ab][0-9a-f]{3}-[0-9a-f]{12}$`
with `re.IGNORECASE`. -/
def isUuidFormat (s : String) : Bool :=
  match splitOnChar '-' s.data with
  | [a, b, c, d, e] =>
    a.length == 8 && a.all isHexChar &&
      b.length == 4 && b.all isHexChar &&
      c.length == 4 && c.all isHexChar &&
      (match c with | v :: _ => '1' ≤ v && v ≤ '5' | [] => false) &&
      d.length == 4 && d.all isHexChar &&
      (match d with
       | v :: _ => v == '8' || v == '9' || asciiLowerChar v == 'a' || asciiLowerChar v == 'b'
       | [] => false) &&
      e.length == 12 && e.all isHexChar
  | _ => false

/-- `ValidateInputNode._validate_session_id`. -/
def validateSessionId (s : String) : List String :=
  if s == "" then ["Session ID is required"]
  else if isUuidFormat s then []
  else ["Session ID must be a valid UUID"]

/-- The ordered violation list collected by `ValidateInputNode.__call__`:
every field's validator runs, and its violations are appended in the
fixed field order topic, date, top_n, llm_model, session_id. -/
def inputValidationErrors (today : SimpleDate) (topic date : String) (topN : Int)
    (llmModel sessionId : String) : List String :=
  validateTopic topic ++ validateDate today date ++ validateTopN topN ++
    validateLlmModel llmModel ++ validateSessionId sessionId

/-- The raised `ValidationError` of `ValidateInputNode.__call__`, carrying
the collected violation list and the aggregated message. -/
structure ValidationFailure where
  errors : List String
  message : String
  deriving DecidableEq, Repr

/-- `ValidateInputNode.__call__`: when any violation was collected the
node *raises* `ValidationError("input_validation", "multiple", message)`
with the joined message (modelled as `.error`); only a fully valid input
returns (`.ok`). -/
def validateInputNode (today : SimpleDate) (topic date : String) (topN : Int)
    (llmModel sessionId : String) : Except ValidationFailure Unit :=
  let errs := inputValidationErrors today topic date topN llmModel sessionId
  if errs.isEmpty then .ok ()
  else .error ⟨errs, "Input validation failed: " ++ String.intercalate "; " errs⟩

/-! ## Concrete inputs used by counterexamples and witnesses -/

/-- First colliding article: title `"ABCDEFGHIJZ"`, URL `"http://a.com/x"`.
Its hash input is `"ABCDEFGHIJZ" ++ "http://a.com/x"`. -/
def c1ArticleA : RawArticle :=
  { title := "ABCDEFGHIJZ", url := "http://a.com/x", source := "a",
    snippet := "aaaaaaaaaaaaaaaaaaaa", date := "", position := 1 }

/-- Second colliding article: title `"ABCDEFGHIJ"`, URL `"Zhttp://a.com/x"`
(the `Z` moved from the title into the URL, which still parses with host
`a.com` since `Zhttp` is a syntactically valid scheme).  Its hash input is
the same string `"ABCDEFGHIJZhttp://a.com/x"`, while title and URL both
differ from `c1ArticleA`'s, so both articles survive deduplication. -/
def c1ArticleB : RawArticle :=
  { title := "ABCDEFGHIJ", url := "Zhttp://a.com/x", source := "b",
    snippet := "bbbbbbbbbbbbbbbbbbbb", date := "", position := 2 }

/-- A ledger row used by the C2 scenarios. -/
def c2Entry : UserRequest :=
  { session_id := "s1", request_type := "news_fetch", topic := "ai",
    date_requested := "2024-01-01",
    request_hash := generateRequestHash "ai" "2024-01-01" "s1",
    created_at := 10000 }

/-- A date function for the C2 scenarios (every timestamp on the same
calendar day). -/
def c2DateOf : Int → PyDate := fun _ => ⟨2024, 1, 1⟩

/-- A model response triggering the X-post truncation bug: `"AB"`, a
space, and a 261-character hashtag (`#` + 260 `a`s), 264 characters in
all, containing no URL and no room for the hashtag run plus ellipsis. -/
def c7FailingResponse : String := "AB #" ++ ⟨List.replicate 260 'a'⟩

/-- A well-formed Serper response item (nonempty title and link). -/
def c8Item : SerperItem :=
  { title := "Some headline", link := "http://news.example.com/a", source := "example",
    snippet := "", date := "", imageUrl := "", position := 1 }

/-- A summarized article used by witnesses for the post and summarize
nodes. -/
def witnessArticle : NewsArticle :=
  { title := "Witness article title", url := "http://w.com/a", source := "w.com",
    summary := "A snippet of more than twenty characters.", published_at := "",
    relevance_score := 0, content_hash := "h" }

/-- A post-workflow state with all required fields present. -/
def witnessPostState : PostState :=
  { session_id := some "s", workflow_id := some "w", llm_model := some "claude-3-5-sonnet",
    topic := "AI", articles := [⟨"t", "http://w.com/a"⟩],
    linkedin_post := none, x_post := none, current_step := "", current_llm_provider := "",
    error_message := none, failed_step := none, processing_steps := [] }

/-- A post-node environment with no configured providers (so the LLM
lookup raises). -/
def emptyProvidersEnv : PostEnv :=
  { providers := [], llmResponse := fun _ => .error "unreachable",
    shorten := fun _ => none, tinyKeyConfigured := false }

/-! # Theorems

Helper lemmas first, then one theorem (plus counterexample and witness
where applicable) per claim. -/

/-- Every article surviving `removeDuplicatesAux` has a URL and a
normalized-title hash outside the incoming seen-sets. -/
theorem mem_removeDuplicatesAux {a : RawArticle} :
    ∀ {l : List RawArticle} {su st : List String}, a ∈ removeDuplicatesAux l su st →
      su.contains a.url = false ∧ st.contains (md5Hex (normTitleStr a.title)) = false := by
  intro l
  induction l with
  | nil => intro su st h; simp [removeDuplicatesAux] at h
  | cons x t ih =>
    intro su st h
    simp only [removeDuplicatesAux] at h
    by_cases h1 : su.contains x.url
    · simp only [h1, if_true] at h; exact ih h
    · simp only [h1, if_false, Bool.false_eq_true] at h
      by_cases h2 : st.contains (md5Hex (normTitleStr x.title))
      · simp only [h2, if_true] at h; exact ih h
      · simp only [h2, if_false, Bool.false_eq_true, List.mem_cons] at h
        rcases h with rfl | h
        · constructor
          · simpa using h1
          · simpa using h2
        · have := ih h
          simp only [List.contains_cons, Bool.or_eq_false_iff] at this
          exact ⟨this.1.2, this.2.2⟩

/-- The deduplicated batch is pairwise distinct in URL and in normalized
title. -/
theorem pairwise_removeDuplicatesAux :
    ∀ (l : List RawArticle) (su st : List String),
      (removeDuplicatesAux l su st).Pairwise
        (fun a b => a.url ≠ b.url ∧ normTitleStr a.title ≠ normTitleStr b.title) := by
  intro l
  induction l with
  | nil => intro su st; simp [removeDuplicatesAux]
  | cons x t ih =>
    intro su st
    simp only [removeDuplicatesAux]
    by_cases h1 : su.contains x.url
    · simp only [h1, if_true]; exact ih su st
    · simp only [h1, if_false, Bool.false_eq_true]
      by_cases h2 : st.contains (md5Hex (normTitleStr x.title))
      · simp only [h2, if_true]; exact ih su st
      · simp only [h2, if_false, Bool.false_eq_true]
        refine List.Pairwise.cons ?_ (ih _ _)
        intro b hb
        have hmem := mem_removeDuplicatesAux hb
        simp only [List.contains_cons, Bool.or_eq_false_iff] at hmem
        constructor
        · intro hu; exact absurd (beq_iff_eq.mpr hu.symm) (by simpa using hmem.1.1)
        · intro ht
          have : md5Hex (normTitleStr b.title) = md5Hex (normTitleStr x.title) := by
            simp [md5Hex, ht]
          exact absurd (beq_iff_eq.mpr this) (by simpa using hmem.2.1)

/-- Propositional characterisation of the lexicographic key order. -/
theorem keyLE_iff (x y : ℚ × Bool × Int) :
    keyLE x y = true ↔
      (x.1 < y.1 ∨ (x.1 = y.1 ∧
        ((x.2.1 = false ∧ y.2.1 = true) ∨ (x.2.1 = y.2.1 ∧ x.2.2 ≤ y.2.2)))) := by
  simp only [keyLE, boolLT, Bool.or_eq_true, Bool.and_eq_true, decide_eq_true_eq,
    beq_iff_eq, Bool.not_eq_true']

/-- The key order is total. -/
theorem keyLE_total (x y : ℚ × Bool × Int) : keyLE x y = true ∨ keyLE y x = true := by
  rw [keyLE_iff, keyLE_iff]
  rcases lt_trichotomy x.1 y.1 with h | h | h
  · exact Or.inl (Or.inl h)
  · cases hx : x.2.1 <;> cases hy : y.2.1
    · rcases le_total x.2.2 y.2.2 with h3 | h3
      · exact Or.inl (Or.inr ⟨h, Or.inr ⟨rfl, h3⟩⟩)
      · exact Or.inr (Or.inr ⟨h.symm, Or.inr ⟨rfl, h3⟩⟩)
    · exact Or.inl (Or.inr ⟨h, Or.inl ⟨rfl, rfl⟩⟩)
    · exact Or.inr (Or.inr ⟨h.symm, Or.inl ⟨rfl, rfl⟩⟩)
    · rcases le_total x.2.2 y.2.2 with h3 | h3
      · exact Or.inl (Or.inr ⟨h, Or.inr ⟨rfl, h3⟩⟩)
      · exact Or.inr (Or.inr ⟨h.symm, Or.inr ⟨rfl, h3⟩⟩)
  · exact Or.inr (Or.inl h)

/-- The key order is transitive. -/
theorem keyLE_trans {x y z : ℚ × Bool × Int}
    (h1 : keyLE x y = true) (h2 : keyLE y z = true) : keyLE x z = true := by
  rw [keyLE_iff] at h1 h2 ⊢
  rcases h1 with h1 | ⟨he1, h1⟩
  · rcases h2 with h2 | ⟨he2, _⟩
    · exact Or.inl (h1.trans h2)
    · exact Or.inl (he2 ▸ h1)
  · rcases h2 with h2 | ⟨he2, h2⟩
    · exact Or.inl (he1 ▸ h2)
    · refine Or.inr ⟨he1.trans he2, ?_⟩
      rcases h1 with ⟨hx, hy⟩ | ⟨hb1, hi1⟩
      · rcases h2 with ⟨hy2, hz⟩ | ⟨hb2, _⟩
        · rw [hy] at hy2; exact absurd hy2 (by simp)
        · exact Or.inl ⟨hx, hb2 ▸ hy⟩
      · rcases h2 with ⟨hy2, hz⟩ | ⟨hb2, hi2⟩
        · exact Or.inl ⟨hb1.trans hy2, hz⟩
        · exact Or.inr ⟨hb1.trans hb2, hi1.trans hi2⟩

/-- The descending comparator used by the ranking sort is total. -/
theorem rankLE_total : ∀ a b : ScoredArticle, (rankLE a b || rankLE b a) = true := by
  intro a b
  rcases keyLE_total (sortKey b) (sortKey a) with h | h <;> simp [rankLE, h]

/-- The descending comparator used by the ranking sort is transitive. -/
theorem rankLE_trans : ∀ a b c : ScoredArticle,
    rankLE a b = true → rankLE b c = true → rankLE a c = true := by
  intro a b c h1 h2
  exact keyLE_trans h2 h1

/-- Relevance scoring leaves the underlying raw article untouched, so any
pairwise relation on the raw articles carries over. -/
theorem pairwise_art_calculate (cfg : Option TopicConfig) (l : List RawArticle)
    {R : RawArticle → RawArticle → Prop} (h : l.Pairwise R) :
    (calculateRelevanceScores cfg l).Pairwise (fun x y => R x.art y.art) := by
  cases cfg with
  | none => exact List.Pairwise.map _ (fun a b hab => hab) h
  | some c =>
    by_cases hk : c.keywords.isEmpty <;>
      simp only [calculateRelevanceScores, hk, if_true, if_false] <;>
      exact List.Pairwise.map _ (fun a b hab => hab) h

/-- The source-priority boost leaves the underlying raw article untouched,
so any pairwise relation on it carries over. -/
theorem pairwise_art_boost (cfg : Option TopicConfig) (l : List ScoredArticle)
    {R : RawArticle → RawArticle → Prop} (h : l.Pairwise (fun x y => R x.art y.art)) :
    (filterBySourcePriority cfg l).Pairwise (fun x y => R x.art y.art) := by
  cases cfg with
  | none => exact h
  | some c =>
    by_cases ht : c.trustedSources.isEmpty
    · simpa only [filterBySourcePriority, ht, if_true] using h
    · simp only [filterBySourcePriority, ht, if_false, Bool.false_eq_true]
      refine List.Pairwise.map _ (fun a b hab => ?_) h
      by_cases ha : c.trustedSources.any (fun ts => strContains (boostDomain a.art.url) (pyLower ts)) <;>
        by_cases hb : c.trustedSources.any (fun ts => strContains (boostDomain b.art.url) (pyLower ts)) <;>
        simp only [ha, hb, if_true, if_false, Bool.false_eq_true] <;> exact hab

/-- C1 (amended): for every candidate list and requested count n ≥ 1, the
article list returned by the `FilterArticlesNode` pipeline contains at
most n articles; no two returned articles share a URL and no two share a
lower-cased, whitespace-trimmed title (content-hashes may nevertheless
collide when two distinct (title, URL) pairs concatenate to the same
`title + url` hash-input string); and for any two returned articles A
before B, A's (relevance-score, trusted-source, negated position) key
tuple is ≥ B's under the descending lexicographic ranking order. -/
theorem c1_ranker_count_dedup_order (cfg : Option TopicConfig) (raw : List RawArticle)
    (n : Nat) (_h : 1 ≤ n) :
    (filterArticlesPipeline cfg raw n).length ≤ n ∧
    (filterArticlesPipeline cfg raw n).Pairwise
      (fun a b => a.url ≠ b.url ∧ normTitleStr a.title ≠ normTitleStr b.title) ∧
    (rankedArticles cfg raw n).Pairwise
      (fun a b => keyLE (sortKey b) (sortKey a) = true) := by
  set scored := filterBySourcePriority cfg
    (calculateRelevanceScores cfg (removeDuplicates (filterByQuality raw))) with hscored_def
  have hdedup : (removeDuplicates (filterByQuality raw)).Pairwise
      (fun a b => a.url ≠ b.url ∧ normTitleStr a.title ≠ normTitleStr b.title) :=
    pairwise_removeDuplicatesAux _ [] []
  have hscored : scored.Pairwise
      (fun x y => x.art.url ≠ y.art.url ∧ normTitleStr x.art.title ≠ normTitleStr y.art.title) :=
    pairwise_art_boost cfg _ (pairwise_art_calculate cfg _ hdedup)
  have hsym : ∀ {x y : ScoredArticle},
      (x.art.url ≠ y.art.url ∧ normTitleStr x.art.title ≠ normTitleStr y.art.title) →
      (y.art.url ≠ x.art.url ∧ normTitleStr y.art.title ≠ normTitleStr x.art.title) :=
    fun hxy => ⟨hxy.1.symm, hxy.2.symm⟩
  have hms : (scored.mergeSort rankLE).Pairwise
      (fun x y => x.art.url ≠ y.art.url ∧ normTitleStr x.art.title ≠ normTitleStr y.art.title) :=
    ((List.mergeSort_perm scored rankLE).pairwise_iff hsym).mpr hscored
  have hranked : (rankedArticles cfg raw n).Pairwise
      (fun x y => x.art.url ≠ y.art.url ∧ normTitleStr x.art.title ≠ normTitleStr y.art.title) :=
    List.Pairwise.sublist (List.take_sublist n _) hms
  have hsorted : (rankedArticles cfg raw n).Pairwise (fun a b => rankLE a b = true) :=
    List.Pairwise.sublist (List.take_sublist n _)
      (List.sorted_mergeSort rankLE_trans rankLE_total scored)
  refine ⟨?_, ?_, ?_⟩
  · simp only [filterArticlesPipeline, convertToNewsArticles, List.length_map,
      rankedArticles, rankAndLimitArticles, List.length_take]
    exact min_le_left _ _
  · exact List.Pairwise.map _ (fun a b hab => hab) hranked
  · exact hsorted

/-- C1 witness: the amended theorem applied to the concrete two-article
batch with requested count 5. -/
theorem c1_ranker_count_dedup_order_witness :
    (filterArticlesPipeline none [c1ArticleA, c1ArticleB] 5).length ≤ 5 ∧
    (filterArticlesPipeline none [c1ArticleA, c1ArticleB] 5).Pairwise
      (fun a b => a.url ≠ b.url ∧ normTitleStr a.title ≠ normTitleStr b.title) ∧
    (rankedArticles none [c1ArticleA, c1ArticleB] 5).Pairwise
      (fun a b => keyLE (sortKey b) (sortKey a) = true) :=
  c1_ranker_count_dedup_order none [c1ArticleA, c1ArticleB] 5 (by decide)

/-- C1 counterexample: the claim as stated is false — on the two-article
batch `[c1ArticleA, c1ArticleB]` the pipeline returns two articles whose
`content_hash` values coincide (both hash inputs are the string
`"ABCDEFGHIJZhttp://a.com/x"`), although their URLs differ. -/
theorem c1_content_hash_collision :
    (filterArticlesPipeline none [c1ArticleA, c1ArticleB] 5).map NewsArticle.content_hash
        = ["ABCDEFGHIJZhttp://a.com/x", "ABCDEFGHIJZhttp://a.com/x"] ∧
    ¬ (filterArticlesPipeline none [c1ArticleA, c1ArticleB] 5).Pairwise
        (fun a b => a.content_hash ≠ b.content_hash) := by
  have hpre : filterBySourcePriority none
      (calculateRelevanceScores none (removeDuplicates (filterByQuality [c1ArticleA, c1ArticleB])))
      = [⟨c1ArticleA, 1/2, false⟩, ⟨c1ArticleB, 1/2, false⟩] := rfl
  have hpair : List.Pairwise (fun a b => rankLE a b = true)
      [(⟨c1ArticleA, 1/2, false⟩ : ScoredArticle), ⟨c1ArticleB, 1/2, false⟩] := by
    refine List.Pairwise.cons ?_ (List.Pairwise.cons (by simp) List.Pairwise.nil)
    intro b hb
    simp only [List.mem_singleton] at hb
    subst hb
    simp only [rankLE, keyLE, sortKey, boolLT]
    norm_num [c1ArticleA, c1ArticleB]
  have hmap : (filterArticlesPipeline none [c1ArticleA, c1ArticleB] 5).map NewsArticle.content_hash
      = ["ABCDEFGHIJZhttp://a.com/x", "ABCDEFGHIJZhttp://a.com/x"] := by
    unfold filterArticlesPipeline rankedArticles rankAndLimitArticles
    rw [hpre, List.mergeSort_of_sorted hpair]
    rfl
  refine ⟨hmap, fun hpw => ?_⟩
  have h2 : ((filterArticlesPipeline none [c1ArticleA, c1ArticleB] 5).map
      NewsArticle.content_hash).Pairwise (fun a b => a ≠ b) :=
    List.Pairwise.map _ (fun a b hab => hab) hpw
  rw [hmap] at h2
  exact (List.pairwise_cons.mp h2).1 _ (by simp) rfl

/-- C2 (amended): the QuotaGate rejects with `DuplicateRequest` when
exactly one same-fingerprint ledger row exists for the session within the
last hour — this duplicate check runs before the quota check, so it wins
even when the quota is also exhausted; with no duplicate it rejects with
`QuotaExceeded` (daily window first) when today's count is ≥ the daily
limit or this month's count is ≥ the monthly limit; when two or more
same-fingerprint rows match, the one-row query raises and the rejection
surfaces as a `DatabaseError` instead of `DuplicateRequest`; and on every
rejection the transaction is rolled back, so no new ledger entry is
persisted and a rejected request consumes no quota. -/
theorem c2_quota_gate_rejections (dateOf : Int → PyDate) (dl ml : Int)
    (ledger : List UserRequest) (now : Int) (sid topic date : String) :
    (∀ e, duplicateRows ledger sid (generateRequestHash topic date sid) now = [e] →
      checkQuotaNode dateOf dl ml ledger now sid topic date
        = (.error (.duplicateRequest (generateRequestHash topic date sid) e.created_at), ledger)) ∧
    (duplicateRows ledger sid (generateRequestHash topic date sid) now = [] →
      dl ≤ dailyUsedCount dateOf ledger sid (dateOf now) →
      checkQuotaNode dateOf dl ml ledger now sid topic date
        = (.error (.quotaExceeded "daily" (dailyUsedCount dateOf ledger sid (dateOf now)) dl),
            ledger)) ∧
    (duplicateRows ledger sid (generateRequestHash topic date sid) now = [] →
      dailyUsedCount dateOf ledger sid (dateOf now) < dl →
      ml ≤ monthlyUsedCount dateOf ledger sid (dateOf now) →
      checkQuotaNode dateOf dl ml ledger now sid topic date
        = (.error (.quotaExceeded "monthly" (monthlyUsedCount dateOf ledger sid (dateOf now)) ml),
            ledger)) ∧
    (∀ e f t, duplicateRows ledger sid (generateRequestHash topic date sid) now = e :: f :: t →
      checkQuotaNode dateOf dl ml ledger now sid topic date
        = (.error (.databaseError "duplicate_check"), ledger)) ∧
    (duplicateRows ledger sid (generateRequestHash topic date sid) now = [] →
      dailyUsedCount dateOf ledger sid (dateOf now) < dl →
      monthlyUsedCount dateOf ledger sid (dateOf now) < ml →
      checkQuotaNode dateOf dl ml ledger now sid topic date
        = (.ok { daily_used := dailyUsedCount dateOf ledger sid (dateOf now) + 1,
                 daily_limit := dl,
                 monthly_used := monthlyUsedCount dateOf ledger sid (dateOf now) + 1,
                 monthly_limit := ml,
                 remaining := dl - (dailyUsedCount dateOf ledger sid (dateOf now) + 1),
                 quota_available :=
                   decide (0 < dl - (dailyUsedCount dateOf ledger sid (dateOf now) + 1)) },
           ledger ++ [{ session_id := sid, request_type := "news_fetch", topic := topic,
                        date_requested := date,
                        request_hash := generateRequestHash topic date sid,
                        created_at := now }])) := by
  refine ⟨?_, ?_, ?_, ?_, ?_⟩
  · intro e he
    simp only [checkQuotaNode]
    rw [he]
  · intro hd hdl
    simp only [checkQuotaNode]
    rw [hd]
    simp only [if_pos hdl]
  · intro hd hdl hml
    simp only [checkQuotaNode]
    rw [hd]
    simp only [if_neg (not_le.mpr hdl), if_pos hml]
  · intro e f t he
    simp only [checkQuotaNode]
    rw [he]
  · intro hd hdl hml
    simp only [checkQuotaNode]
    rw [hd]
    simp only [if_neg (not_le.mpr hdl), if_neg (not_le.mpr hml)]

/-- C2 witness: a session whose ledger holds one same-fingerprint entry
from 10000 s, queried at 10000 s with both limits already exhausted
(limit 0), is rejected as a duplicate — the duplicate check precedes the
quota check — and the ledger is unchanged. -/
theorem c2_quota_gate_rejections_witness :
    checkQuotaNode c2DateOf 0 0 [c2Entry] 10000 "s1" "ai" "2024-01-01"
      = (.error (.duplicateRequest (generateRequestHash "ai" "2024-01-01" "s1")
          c2Entry.created_at), [c2Entry]) :=
  (c2_quota_gate_rejections c2DateOf 0 0 [c2Entry] 10000 "s1" "ai" "2024-01-01").1
    c2Entry (by decide)

/-- C2 counterexample: with two identical same-fingerprint rows in the
window (a state two concurrent admissions can produce, since the gate
takes no lock), the `scalar_one_or_none` duplicate query raises, so the
rejection is a `DatabaseError`, not the `DuplicateRequest` the claim
promises whenever "a ledger entry with the same fingerprint exists". -/
theorem c2_double_duplicate_database_error :
    checkQuotaNode c2DateOf 10 300 [c2Entry, c2Entry] 10000 "s1" "ai" "2024-01-01"
        = (.error (.databaseError "duplicate_check"), [c2Entry, c2Entry]) ∧
    (duplicateRows [c2Entry, c2Entry] "s1"
        (generateRequestHash "ai" "2024-01-01" "s1") 10000).contains c2Entry = true := by
  decide

/-- `foldl` with an additive step computes the initial value plus the
mapped sum. -/
theorem foldl_add_map_sum {α : Type} (f : α → ℚ) :
    ∀ (l : List α) (s : ℚ), l.foldl (fun acc kw => acc + f kw) s = s + (l.map f).sum := by
  intro l
  induction l with
  | nil => intro s; simp
  | cons x t ih =>
    intro s
    simp only [List.foldl_cons, List.map_cons, List.sum_cons, ih, add_assoc]

/-- The code's accumulated score equals the spec-side formula. -/
theorem articleScore_eq_spec (keywords : List String) (a : RawArticle) :
    articleScore keywords a = specRelevanceScore keywords a := by
  simp only [articleScore, specRelevanceScore, keywordScore]
  rw [foldl_add_map_sum]
  simp only [zero_add]
  rfl

/-- C3: with no topic profile, or a profile with an empty keyword list,
every surviving article receives relevance-score exactly 0.5; with a
nonempty keyword list each article's score is
`min(Σ_kw (0.4·[kw in title] + 0.2·[kw in snippet] + 0.1·[kw in source]) / #keywords, 1)`
on the lower-cased fields, and nothing else about the article changes. -/
theorem c3_relevance_scoring (cfg : Option TopicConfig) (l : List RawArticle) :
    ((cfg = none ∨ ∃ c, cfg = some c ∧ c.keywords = []) →
      ∀ sa ∈ calculateRelevanceScores cfg l, sa.relevance_score = 1/2) ∧
    (∀ c, cfg = some c → c.keywords ≠ [] →
      calculateRelevanceScores cfg l
        = l.map (fun a => ⟨a, specRelevanceScore c.keywords a, false⟩)) := by
  constructor
  · rintro (rfl | ⟨c, rfl, hk⟩) sa hsa
    · simp only [calculateRelevanceScores, List.mem_map] at hsa
      obtain ⟨a, _, rfl⟩ := hsa
      rfl
    · simp only [calculateRelevanceScores, hk, List.isEmpty_nil, if_true, List.mem_map] at hsa
      obtain ⟨a, _, rfl⟩ := hsa
      rfl
  · rintro c rfl hk
    have hne : c.keywords.isEmpty = false := by
      cases hkw : c.keywords with
      | nil => exact absurd hkw hk
      | cons x t => rfl
    simp only [calculateRelevanceScores, hne, Bool.false_eq_true, if_false]
    exact List.map_congr_left (fun a _ => by rw [articleScore_eq_spec])

/-- C3 witness: the neutral-score case on a concrete article, and the
formula case for the one-keyword profile `["ai"]`. -/
theorem c3_relevance_scoring_witness :
    (∀ sa ∈ calculateRelevanceScores none [c1ArticleA], sa.relevance_score = 1/2) ∧
    calculateRelevanceScores (some ⟨"ai", ["ai"], [], 1⟩) [c1ArticleA]
      = [⟨c1ArticleA, specRelevanceScore ["ai"] c1ArticleA, false⟩] :=
  ⟨(c3_relevance_scoring none [c1ArticleA]).1 (Or.inl rfl),
   (c3_relevance_scoring (some ⟨"ai", ["ai"], [], 1⟩) [c1ArticleA]).2
     ⟨"ai", ["ai"], [], 1⟩ rfl (by decide)⟩

/-- C4 (amended): the fingerprint is deterministic, and any two topics
with the same lower-cased, `strip`ped normal form — in particular topics
differing only in letter case or in leading/trailing whitespace — yield
the same fingerprint.  (Internal whitespace differences change it; see
the counterexample.) -/
theorem c4_fingerprint_normalization :
    (∀ topic date sid : String,
      generateRequestHash topic date sid = generateRequestHash topic date sid) ∧
    (∀ t t' date sid : String, pyStrip (pyLower t) = pyStrip (pyLower t') →
      generateRequestHash t date sid = generateRequestHash t' date sid) := by
  refine ⟨fun _ _ _ => rfl, fun t t' date sid h => ?_⟩
  unfold generateRequestHash md5Hex
  rw [h]

/-- C4 witness: `"  AI "` and `"ai"` share a normal form, hence a
fingerprint. -/
theorem c4_fingerprint_normalization_witness :
    generateRequestHash "  AI " "2024-01-01" "s" = generateRequestHash "ai" "2024-01-01" "s" :=
  (c4_fingerprint_normalization).2 "  AI " "ai" "2024-01-01" "s" (by decide)

/-- C4 counterexample: `str.strip()` removes only leading and trailing
whitespace, so two topics differing only in internal whitespace
(`"a b"` vs `"a  b"`) produce different fingerprints, refuting the
claim's unrestricted whitespace-insensitivity. -/
theorem c4_internal_whitespace_changes_fingerprint :
    generateRequestHash "a b" "2024-01-01" "s" ≠ generateRequestHash "a  b" "2024-01-01" "s" := by
  decide

/-- `get?` of `mapIdx`: the i-th output is the function applied at index i. -/
theorem get?_mapIdx {α β : Type} :
    ∀ (l : List α) (f : Nat → α → β) (i : Nat),
      (l.mapIdx f).get? i = (l.get? i).map (fun a => f i a)
  | [], _, _ => by simp
  | x :: t, f, 0 => by simp [List.mapIdx_cons]
  | x :: t, f, i + 1 => by
    simp only [List.mapIdx_cons, List.get?_cons_succ]
    rw [get?_mapIdx t _ i]

/-- Python string length distributes over concatenation. -/
theorem strLen_append (a b : String) : strLen (a ++ b) = strLen a + strLen b := by
  simp [strLen, String.data_append]

/-- Length of a Python prefix slice. -/
theorem strLen_strTake (s : String) (n : Nat) : strLen (strTake s n) = min n (strLen s) := by
  simp [strLen, strTake]

/-- A truncated summary never exceeds the 200-character limit. -/
theorem strLen_truncateSummary (s : String) : strLen (truncateSummary s) ≤ summaryMaxLength := by
  unfold truncateSummary
  by_cases h : summaryMaxLength < strLen s
  · rw [if_pos h, strLen_append, strLen_strTake]
    have h3 : strLen "..." = 3 := rfl
    rw [h3]
    simp only [summaryMaxLength] at h ⊢
    omega
  · rw [if_neg h]
    exact le_of_not_lt h

/-- Every successful retry-loop outcome is a truncated summary, hence at
most 200 characters. -/
theorem singleSummaryOutcome_le (atts : List (Option String)) (s : String)
    (h : singleSummaryOutcome atts = some s) : strLen s ≤ summaryMaxLength := by
  induction atts with
  | nil => simp [singleSummaryOutcome] at h
  | cons a rest ih =>
    cases a with
    | none => exact ih (by simpa [singleSummaryOutcome] using h)
    | some c =>
      simp only [singleSummaryOutcome] at h
      by_cases hc : pyStrip c != ""
      · rw [if_pos hc] at h
        cases h
        exact strLen_truncateSummary _
      · rw [if_neg hc] at h
        exact ih h

/-- The provider-order fold keeps the preferred provider at the head. -/
theorem foldl_keep_head (p : String) :
    ∀ (l : List String) (acc : List String),
      l.foldl (fun acc q => if q != p then acc ++ [q] else acc) (p :: acc)
        = p :: l.foldl (fun acc q => if q != p then acc ++ [q] else acc) acc := by
  intro l
  induction l with
  | nil => intro acc; rfl
  | cons x t ih =>
    intro acc
    simp only [List.foldl_cons]
    by_cases hx : x != p
    · rw [if_pos hx, if_pos hx]
      exact ih (acc ++ [x])
    · rw [if_neg hx, if_neg hx]
      exact ih acc

/-- C5: for every nonempty article list and every provider whose client
initializes, the summarizer returns exactly one summarized article per
input article in input order (same length, i-th output from i-th input
with all non-summary fields preserved); every returned summary is at most
200 characters; when the retry loop for one article fails, that article
keeps its original snippet truncated to 200 characters instead of being
dropped; and the batch is completed under the single provider — the
fallback loop records exactly `[p]` and returns the batch. -/
theorem c5_summarizer_per_article (keys : ApiKeys) (gen : LLMGen)
    (articles : List NewsArticle) (p : String)
    (hne : articles ≠ []) (hinit : initializeLlmClient keys p = .ok ()) :
    generateSummaries gen p articles = .ok (generateSummariesList gen p articles) ∧
    (summarizeWithFallback keys gen articles p).1 = [p] ∧
    (summarizeWithFallback keys gen articles p).2 = .ok (generateSummariesList gen p articles) ∧
    (generateSummariesList gen p articles).length = articles.length ∧
    (∀ i, i < articles.length →
      ∃ orig a', articles.get? i = some orig ∧
        (generateSummariesList gen p articles).get? i = some a' ∧
        a'.title = orig.title ∧ a'.url = orig.url ∧ a'.source = orig.source ∧
        a'.published_at = orig.published_at ∧ a'.relevance_score = orig.relevance_score ∧
        a'.content_hash = orig.content_hash ∧
        strLen a'.summary ≤ summaryMaxLength ∧
        (singleSummaryOutcome (gen p i) = none →
          a'.summary = strTake orig.summary summaryMaxLength)) := by
  have hlen : (generateSummariesList gen p articles).length = articles.length := by
    simp [generateSummariesList]
  have hne' : generateSummariesList gen p articles ≠ [] := by
    intro h0
    apply hne
    rw [h0] at hlen
    exact List.length_eq_zero.mp hlen.symm
  have hempty : (generateSummariesList gen p articles).isEmpty = false := by
    cases hv : generateSummariesList gen p articles with
    | nil => exact absurd hv hne'
    | cons y u => rfl
  have hok : generateSummaries gen p articles = .ok (generateSummariesList gen p articles) := by
    simp only [generateSummaries]
    rw [hempty]
    simp
  have horder : getProviderOrder p
      = p :: knownProviders.foldl (fun acc q => if q != p then acc ++ [q] else acc) [] :=
    foldl_keep_head p knownProviders []
  have hfb : summarizeWithFallback keys gen articles p
      = ([p], .ok (generateSummariesList gen p articles)) := by
    unfold summarizeWithFallback
    rw [horder]
    simp only [summarizeWithFallbackAux]
    rw [hinit, hok]
    rfl
  refine ⟨hok, by rw [hfb], by rw [hfb], hlen, ?_⟩
  intro i hi
  cases horig : articles.get? i with
  | none =>
    rw [List.get?_eq_none] at horig
    omega
  | some orig =>
    cases hout : singleSummaryOutcome (gen p i) with
    | some s =>
      have hget : (generateSummariesList gen p articles).get? i
          = some { orig with summary := s } := by
        simp only [generateSummariesList]
        rw [get?_mapIdx, horig]
        simp [hout]
      refine ⟨orig, _, rfl, hget, rfl, rfl, rfl, rfl, rfl, rfl, ?_, ?_⟩
      · exact singleSummaryOutcome_le _ _ hout
      · intro hcon; cases hcon
    | none =>
      have hget : (generateSummariesList gen p articles).get? i
          = some { orig with summary := strTake orig.summary summaryMaxLength } := by
        simp only [generateSummariesList]
        rw [get?_mapIdx, horig]
        simp [hout]
      refine ⟨orig, _, rfl, hget, rfl, rfl, rfl, rfl, rfl, rfl, ?_, fun _ => rfl⟩
      rw [strLen_strTake]
      exact min_le_left _ _

/-- C5 witness: the theorem applied to a one-article batch under
`claude-3-5-sonnet` with all keys configured and a generation oracle that
always fails its attempts (so the article falls back to its truncated
snippet and is not dropped). -/
theorem c5_summarizer_per_article_witness :
    generateSummaries (fun _ _ => []) "claude-3-5-sonnet" [witnessArticle]
        = .ok (generateSummariesList (fun _ _ => []) "claude-3-5-sonnet" [witnessArticle]) ∧
    (summarizeWithFallback ⟨true, true, true⟩ (fun _ _ => []) [witnessArticle]
        "claude-3-5-sonnet").1 = ["claude-3-5-sonnet"] ∧
    (summarizeWithFallback ⟨true, true, true⟩ (fun _ _ => []) [witnessArticle]
        "claude-3-5-sonnet").2
      = .ok (generateSummariesList (fun _ _ => []) "claude-3-5-sonnet" [witnessArticle]) ∧
    (generateSummariesList (fun _ _ => []) "claude-3-5-sonnet" [witnessArticle]).length
      = [witnessArticle].length ∧
    (∀ i, i < [witnessArticle].length →
      ∃ orig a', [witnessArticle].get? i = some orig ∧
        (generateSummariesList (fun _ _ => []) "claude-3-5-sonnet" [witnessArticle]).get? i
          = some a' ∧
        a'.title = orig.title ∧ a'.url = orig.url ∧ a'.source = orig.source ∧
        a'.published_at = orig.published_at ∧ a'.relevance_score = orig.relevance_score ∧
        a'.content_hash = orig.content_hash ∧
        strLen a'.summary ≤ summaryMaxLength ∧
        (singleSummaryOutcome ((fun (_ : String) (_ : Nat) => ([] : List (Option String))) "claude-3-5-sonnet" i) = none →
          a'.summary = strTake orig.summary summaryMaxLength)) :=
  c5_summarizer_per_article ⟨true, true, true⟩ (fun _ _ => []) [witnessArticle]
    "claude-3-5-sonnet" (by decide) rfl

/-- The provider-order fold appends exactly the non-preferred providers. -/
theorem foldl_append_filter (p : String) :
    ∀ (l : List String) (acc : List String),
      l.foldl (fun acc q => if q != p then acc ++ [q] else acc) acc
        = acc ++ l.filter (fun q => q != p) := by
  intro l
  induction l with
  | nil => intro acc; simp
  | cons x t ih =>
    intro acc
    simp only [List.foldl_cons, List.filter_cons]
    by_cases hx : x != p
    · rw [if_pos hx, if_pos hx, ih, List.append_assoc]
      rfl
    · rw [if_neg hx, if_neg hx, ih]

/-- `_get_provider_order` is the preferred provider followed by the other
known providers in their fixed order. -/
theorem getProviderOrder_eq (p : String) :
    getProviderOrder p = p :: knownProviders.filter (fun q => q != p) := by
  unfold getProviderOrder
  rw [foldl_append_filter]
  rfl

/-- `_generate_summaries` succeeds on every nonempty batch. -/
theorem generateSummaries_ok (gen : LLMGen) (p : String) (articles : List NewsArticle)
    (hne : articles ≠ []) :
    generateSummaries gen p articles = .ok (generateSummariesList gen p articles) := by
  have hlen : (generateSummariesList gen p articles).length = articles.length := by
    simp [generateSummariesList]
  have hne2 : generateSummariesList gen p articles ≠ [] := by
    intro h0
    apply hne
    rw [h0] at hlen
    exact List.length_eq_zero.mp hlen.symm
  have hempty : (generateSummariesList gen p articles).isEmpty = false := by
    cases hv : generateSummariesList gen p articles with
    | nil => exact absurd hv hne2
    | cons y u => rfl
  simp only [generateSummaries]
  rw [hempty]
  simp

/-- One step of the fallback loop when client initialisation fails. -/
theorem summarizeWithFallbackAux_cons_initError (keys : ApiKeys) (gen : LLMGen)
    (articles : List NewsArticle) (p : String) (rest tried : List String)
    (lastE : Option LLMError) (e : LLMError)
    (he : initializeLlmClient keys p = .error e) :
    summarizeWithFallbackAux keys gen articles (p :: rest) tried lastE
      = summarizeWithFallbackAux keys gen articles rest (tried ++ [p]) (some e) := by
  simp only [summarizeWithFallbackAux]
  rw [he]

/-- When every remaining provider fails to initialise, the loop tries all
of them and raises the aggregate error built from the *last* failure. -/
theorem summarizeWithFallbackAux_allfail (keys : ApiKeys) (gen : LLMGen)
    (articles : List NewsArticle) :
    ∀ (l : List String) (tried : List String) (lastE : Option LLMError) (q : String),
      l.getLast? = some q →
      (∀ r ∈ l, ∃ e, initializeLlmClient keys r = .error e) →
      ∃ e, initializeLlmClient keys q = .error e ∧
        summarizeWithFallbackAux keys gen articles l tried lastE
          = (tried ++ l, .error ⟨"all_providers",
              "All LLM providers failed. Last error: " ++ e.message⟩) := by
  intro l
  induction l with
  | nil => intro tried lastE q hq; cases hq
  | cons x t ih =>
    intro tried lastE q hq hfail
    obtain ⟨ex, hex⟩ := hfail x (by simp)
    cases t with
    | nil =>
      have hq0 : q = x := by simpa using hq.symm
      subst hq0
      refine ⟨ex, hex, ?_⟩
      rw [summarizeWithFallbackAux_cons_initError keys gen articles q [] tried lastE ex hex]
      simp [summarizeWithFallbackAux]
    | cons y u =>
      have hq2 : (y :: u).getLast? = some q := by
        rwa [List.getLast?_cons_cons] at hq
      obtain ⟨e, he, hrec⟩ := ih (tried ++ [x]) (some ex) q hq2
        (fun r hr => hfail r (List.mem_cons_of_mem x hr))
      refine ⟨e, he, ?_⟩
      rw [summarizeWithFallbackAux_cons_initError keys gen articles x (y :: u) tried lastE ex hex,
        hrec]
      simp

/-- C6 (amended): the provider order is the preferred provider followed by
the remaining known providers in fixed order; when provider[0] fails for
the whole batch (its client does not initialise) and provider[1]
succeeds on a nonempty batch, the recorded providers-tried list is
exactly [provider0, provider1] and the final (last-recorded) provider is
provider1; and when every provider fails entirely, the stage raises an
`LLMProviderError` whose provider field is `"all_providers"` and whose
message embeds only the *last* provider's underlying error — the full
list of providers tried is recorded in providers_tried but is not named
in the error. -/
theorem c6_provider_fallback :
    (∀ preferred, getProviderOrder preferred
        = preferred :: knownProviders.filter (fun q => q != preferred)) ∧
    (∀ (keys : ApiKeys) (gen : LLMGen) (articles : List NewsArticle)
        (preferred p1 : String) (rest : List String),
      knownProviders.filter (fun q => q != preferred) = p1 :: rest →
      (∃ e0, initializeLlmClient keys preferred = .error e0) →
      initializeLlmClient keys p1 = .ok () →
      articles ≠ [] →
      summarizeWithFallback keys gen articles preferred
        = ([preferred, p1], .ok (generateSummariesList gen p1 articles))) ∧
    (∀ (keys : ApiKeys) (gen : LLMGen) (articles : List NewsArticle)
        (preferred q : String),
      (getProviderOrder preferred).getLast? = some q →
      (∀ r ∈ getProviderOrder preferred, ∃ e, initializeLlmClient keys r = .error e) →
      ∃ e, initializeLlmClient keys q = .error e ∧
        summarizeWithFallback keys gen articles preferred
          = (getProviderOrder preferred, .error ⟨"all_providers",
              "All LLM providers failed. Last error: " ++ e.message⟩)) := by
  refine ⟨getProviderOrder_eq, ?_, ?_⟩
  · intro keys gen articles preferred p1 rest hfilter he0x hp1 hne
    obtain ⟨e0, he0⟩ := he0x
    unfold summarizeWithFallback
    rw [getProviderOrder_eq, hfilter,
      summarizeWithFallbackAux_cons_initError keys gen articles preferred (p1 :: rest) []
        none e0 he0]
    simp only [summarizeWithFallbackAux]
    rw [hp1, generateSummaries_ok gen p1 articles hne]
    rfl
  · intro keys gen articles preferred q hlast hfail
    obtain ⟨e, he, hres⟩ :=
      summarizeWithFallbackAux_allfail keys gen articles (getProviderOrder preferred) [] none
        q hlast hfail
    refine ⟨e, he, ?_⟩
    unfold summarizeWithFallback
    rw [hres]
    rfl

/-- C6 witness: with only the OpenAI key configured and preference
`claude-3-5-sonnet`, the Claude client fails to initialise, the batch is
summarized by `gpt-4-turbo`, and the tried list is exactly
`["claude-3-5-sonnet", "gpt-4-turbo"]`. -/
theorem c6_provider_fallback_witness :
    summarizeWithFallback ⟨false, true, false⟩ (fun _ _ => []) [witnessArticle]
        "claude-3-5-sonnet"
      = (["claude-3-5-sonnet", "gpt-4-turbo"],
         .ok (generateSummariesList (fun _ _ => []) "gpt-4-turbo" [witnessArticle])) :=
  c6_provider_fallback.2.1 ⟨false, true, false⟩ (fun _ _ => []) [witnessArticle]
    "claude-3-5-sonnet" "gpt-4-turbo" ["gemini-pro"] (by decide)
    ⟨⟨"claude-3-5-sonnet",
      "Failed to initialize: LLM Provider claude-3-5-sonnet failed: Anthropic API key not configured"⟩,
      rfl⟩
    rfl (by decide)

/-- C6 counterexample: with no keys configured all three providers fail;
`"gpt-4-turbo"` is in the tried list, yet the raised error's message does
not mention it — the error does not name all providers tried. -/
theorem c6_error_omits_tried_provider :
    (summarizeWithFallback ⟨false, false, false⟩ (fun _ _ => []) [witnessArticle]
        "claude-3-5-sonnet").1.contains "gpt-4-turbo" = true ∧
    (summarizeWithFallback ⟨false, false, false⟩ (fun _ _ => []) [witnessArticle]
        "claude-3-5-sonnet").2
      = .error ⟨"all_providers",
          "All LLM providers failed. Last error: LLM Provider gemini-pro failed: Failed to initialize: LLM Provider gemini-pro failed: Google API key not configured"⟩ ∧
    strContains
      "All LLM providers failed. Last error: LLM Provider gemini-pro failed: Failed to initialize: LLM Provider gemini-pro failed: Google API key not configured"
      "gpt-4-turbo" = false := by
  refine ⟨by decide, ?_, by decide⟩
  decide

set_option maxRecDepth 40000 in
/-- C7 (code bug evaluated): on a model output consisting of `"AB"` and a
261-character trailing hashtag (no URL, 264 characters total), the
X-post character-count validation takes the hashtag-preserving branch
with `max_content_length = 250 - 262 - 3 = -15`; the negative Python
slice keeps the run and the final post is 265 characters — over the
250-character hard cap the claim (and the node's own docstring) promise. -/
theorem c7_x_truncation_exceeds_limit :
    strLen ((xPostProcess (fun _ => none) false [] "AI" c7FailingResponse).1) = 265 ∧
    xMaxCharLimit < strLen ((xPostProcess (fun _ => none) false [] "AI" c7FailingResponse).1) := by
  decide

/-- C8 (amended): the fetcher caps the *requested* result count at the
provider maximum (`num = min(requested, 20)`), and parsing never invents
items (one output at most per response item) — but the parsed output is
not itself truncated to 20, so a response carrying more than 20 valid
items yields more than 20 articles (see the counterexample). -/
theorem c8_fetch_request_cap (n : Nat) (items : List SerperItem) :
    makeApiCallNum n ≤ 20 ∧ (parseSerperResponse items).length ≤ items.length :=
  ⟨min_le_right n 20, List.length_filterMap_le _ _⟩

/-- C8 counterexample: a provider response with 21 valid items produces
21 candidate articles — the claim's "at most 20 even if more items are
present in the provider's response" is false on the code. -/
theorem c8_parse_no_output_cap :
    (parseSerperResponse (List.replicate 21 c8Item)).length = 21 ∧
    20 < (parseSerperResponse (List.replicate 21 c8Item)).length := by
  decide

/-- C9 (amended): the validator runs all five field checks and collects
every violation, in field order (topic, date, count, model, session),
into one ordered list; it returns normally only when that list is empty,
and otherwise *raises* a single `ValidationError` whose message
aggregates all collected violations — it does not return the violation
list as a value. -/
theorem c9_validator_aggregates_and_raises (today : SimpleDate) (topic date : String)
    (topN : Int) (m sid : String) :
    (validateInputNode today topic date topN m sid = .ok ()
      ↔ inputValidationErrors today topic date topN m sid = []) ∧
    (inputValidationErrors today topic date topN m sid ≠ [] →
      validateInputNode today topic date topN m sid
        = .error ⟨inputValidationErrors today topic date topN m sid,
            "Input validation failed: "
              ++ String.intercalate "; " (inputValidationErrors today topic date topN m sid)⟩) ∧
    (∀ v, (v ∈ validateTopic topic ∨ v ∈ validateDate today date ∨ v ∈ validateTopN topN
        ∨ v ∈ validateLlmModel m ∨ v ∈ validateSessionId sid) →
      v ∈ inputValidationErrors today topic date topN m sid) := by
  refine ⟨?_, ?_, ?_⟩
  · cases hv : inputValidationErrors today topic date topN m sid with
    | nil => simp [validateInputNode, hv]
    | cons x t => simp [validateInputNode, hv]
  · intro hne
    cases hv : inputValidationErrors today topic date topN m sid with
    | nil => exact absurd hv hne
    | cons x t =>
      simp [validateInputNode, hv]
  · intro v hv
    unfold inputValidationErrors
    simp only [List.mem_append]
    tauto

/-- C9 witness: a fully valid input is returned as valid. -/
theorem c9_validator_aggregates_and_raises_witness :
    validateInputNode ⟨2024, 5, 1⟩ "AI" "2024-04-30" 5 "gemini-pro"
        "12345678-9abc-1def-8abc-123456789abc" = .ok () :=
  (c9_validator_aggregates_and_raises ⟨2024, 5, 1⟩ "AI" "2024-04-30" 5 "gemini-pro"
      "12345678-9abc-1def-8abc-123456789abc").1.mpr (by decide)

set_option maxRecDepth 40000 in
/-- C9 counterexample: on malformed input the node does not return the
violation list — it raises (`.error`) a `ValidationError` carrying all
five violations, refuting the "returns ... without raising for malformed
input" reading of the claim.  All five checks did run, so the error
aggregates one violation per field. -/
theorem c9_invalid_input_raises :
    validateInputNode ⟨2024, 5, 1⟩ "a" "bad" 0 "x" "y"
      = .error ⟨["Topic must be at least 2 characters long",
                 "Date must be in YYYY-MM-DD format",
                 "Top N must be at least 1",
                 "LLM model must be one of: claude-3-5-sonnet, gpt-4-turbo, gemini-pro",
                 "Session ID must be a valid UUID"],
          "Input validation failed: Topic must be at least 2 characters long; Date must be in YYYY-MM-DD format; Top N must be at least 1; LLM model must be one of: claude-3-5-sonnet, gpt-4-turbo, gemini-pro; Session ID must be a valid UUID"⟩ := by
  decide

/-- C10: both post nodes wrap their whole body in `try/except Exception`,
so neither ever propagates an exception (`isOk` always); and whenever the
inner body raises, the node returns the *input* state unchanged except
for `error_message`, `failed_step`, `current_step` and one appended
processing step — in particular session, workflow, model, topic,
articles and both post fields are preserved. -/
theorem c10_post_nodes_never_raise (env : PostEnv) (state : PostState) :
    (linkedinPostNode env state).isOk = true ∧
    (xPostNode env state).isOk = true ∧
    (∀ e, linkedinPostInner env state = .error e →
      linkedinPostNode env state = .ok
        { state with
            error_message := some ("Failed to generate LinkedIn post: " ++ e),
            failed_step := some "linkedin_post_generation",
            current_step := "linkedin_post_generation",
            processing_steps := state.processing_steps ++ ["linkedin_post_generation"] }) ∧
    (∀ e, xPostInner env state = .error e →
      xPostNode env state = .ok
        { state with
            error_message := some ("Failed to generate X post: " ++ e),
            failed_step := some "x_post_generation",
            current_step := "x_post_generation",
            processing_steps := state.processing_steps ++ ["x_post_generation"] }) := by
  refine ⟨?_, ?_, ?_, ?_⟩
  · unfold linkedinPostNode
    cases linkedinPostInner env state <;> rfl
  · unfold xPostNode
    cases xPostInner env state <;> rfl
  · intro e he
    unfold linkedinPostNode
    rw [he]
    rfl
  · intro e he
    unfold xPostNode
    rw [he]
    rfl

/-- C10 witness: with no providers configured (and a nonempty article
list), each node's body raises an `LLMProviderError`, and the node
returns the preserved state with the error fields set instead of
raising. -/
theorem c10_post_nodes_never_raise_witness :
    linkedinPostNode emptyProvidersEnv witnessPostState = .ok
      { witnessPostState with
          error_message := some
            "Failed to generate LinkedIn post: LLM Provider none failed: No LLM providers are configured.",
          failed_step := some "linkedin_post_generation",
          current_step := "linkedin_post_generation",
          processing_steps := witnessPostState.processing_steps ++ ["linkedin_post_generation"] } ∧
    xPostNode emptyProvidersEnv witnessPostState = .ok
      { witnessPostState with
          error_message := some
            "Failed to generate X post: LLM Provider none failed: No LLM providers are configured.",
          failed_step := some "x_post_generation",
          current_step := "x_post_generation",
          processing_steps := witnessPostState.processing_steps ++ ["x_post_generation"] } :=
  ⟨(c10_post_nodes_never_raise emptyProvidersEnv witnessPostState).2.2.1
      "LLM Provider none failed: No LLM providers are configured." (by decide),
   (c10_post_nodes_never_raise emptyProvidersEnv witnessPostState).2.2.2
      "LLM Provider none failed: No LLM providers are configured." (by decide)⟩

end Spec2Proof
